import Mathlib

/-!
Verification of the ICT-FaceKit morphable-model core (`Scripts/ict_face_model.py`,
`Scripts/face_model_io.py`, `Scripts/face_model.py`) against its specification.

Vertices are triples of rationals (the Python code computes with numpy floats;
the algorithms are pure linear arithmetic, embedded here over `ℚ`).  Stateful
methods become functions from a `FaceModel` record to `Except PyErr FaceModel`;
numpy array operations that can raise (`a[:] = b`, elementwise `+`/`-` with
broadcasting) are embedded as `Except`-valued primitives that follow numpy's
shape rules for 1-D-of-vector arrays.
-/

namespace ICT

/-- A 3-D vertex position, as one row of a numpy `(N, 3)` points array. -/
abbrev Vec3 := ℚ × ℚ × ℚ

/-- The all-zeros vertex, `np.zeros(3)`. -/
def vzero : Vec3 := (0, 0, 0)

/-- Componentwise vector addition (numpy elementwise `+` on one row). -/
def vadd (a b : Vec3) : Vec3 := (a.1 + b.1, a.2.1 + b.2.1, a.2.2 + b.2.2)

/-- Componentwise vector subtraction (numpy elementwise `-` on one row). -/
def vsub (a b : Vec3) : Vec3 := (a.1 - b.1, a.2.1 - b.2.1, a.2.2 - b.2.2)

/-- Scalar times vector (numpy scalar broadcast `weight * row`). -/
def vsmul (c : ℚ) (a : Vec3) : Vec3 := (c * a.1, c * a.2.1, c * a.2.2)

/-- The Python exceptions the embedded code can raise. -/
inductive PyErr where
  /-- `Exception("Face Model not loaded but required.")` raised by the guarded
  instance methods of `ict_face_model.FaceModel`. -/
  | notLoaded
  /-- numpy `ValueError` from an elementwise operation or slice assignment on
  incompatible first-axis lengths (carries the two lengths, not an asset name). -/
  | broadcastMismatch (dstLen srcLen : Nat)
  /-- Python `KeyError` from indexing a dict with a missing key. -/
  | keyError (k : String)
  /-- failure of `openmesh.read_polymesh` on a missing/unreadable file. -/
  | readMeshError (fileName : String)
  /-- Python `TypeError` (e.g. subscripting a non-dict document). -/
  | typeError
  /-- numpy failure on a ragged nested sequence passed to `np.array`. -/
  | raggedArray
deriving DecidableEq, Repr

instance {ε α : Type} [DecidableEq ε] [DecidableEq α] :
    DecidableEq (Except ε α) := fun a b =>
  match a, b with
  | .ok x, .ok y => decidable_of_iff (x = y) (by simp)
  | .error x, .error y => decidable_of_iff (x = y) (by simp)
  | .ok _, .error _ => isFalse (by simp)
  | .error _, .ok _ => isFalse (by simp)

/-- numpy elementwise binary operation on two 1-D (of `α`) arrays with numpy's
first-axis broadcasting: equal lengths operate pairwise; a length-1 operand is
broadcast against the other; any other length combination raises `ValueError`. -/
def broadcastOp {α : Type} (f : α → α → α) (a b : List α) : Except PyErr (List α) :=
  if a.length = b.length then .ok (List.zipWith f a b)
  else
    match a, b with
    | _, [y] => .ok (a.map (fun x => f x y))
    | [x], _ => .ok (b.map (fun y => f x y))
    | _, _ => .error (.broadcastMismatch a.length b.length)

/-- numpy full-slice assignment `dst[:] = src`: `src` must have the length of
`dst` or length 1 (broadcast to every entry); otherwise `ValueError`. -/
def sliceAssign {α : Type} (dst src : List α) : Except PyErr (List α) :=
  if src.length = dst.length then .ok src
  else
    match src with
    | [x] => .ok (dst.map (fun _ => x))
    | _ => .error (.broadcastMismatch dst.length src.length)

/-- The `FaceModel` instance state of `Scripts/ict_face_model.py`.

`FaceModel.__init__` sets `_model_loaded = False` and every other attribute to
`None`.  Attributes whose `None`-ness is never read by any modelled operation
are embedded with inert defaults (`[]`, `0`); the two weight vectors keep the
source's `None`-versus-set distinction as `Option`, because `load_model` and the
setters branch on it.  `_deformed_vertices` is the points array of
`_deformed_mesh`; the opaque mesh object is represented by its vertex array.
`_num_expression_shapes` / `_num_identity_shapes` are the distinct attributes
written by `face_model_io._DirectoryModelLoader.load_model` (which never writes
`_num_expressions` / `_num_identities` / `_model_loaded`). -/
structure FaceModel where
  model_loaded : Bool := false
  model_initialized : Bool := false
  generic_neutral_points : List Vec3 := []
  deformed_vertices : List Vec3 := []
  expression_names : List String := []
  identity_names : List String := []
  num_expressions : Nat := 0
  num_identities : Nat := 0
  num_expression_shapes : Nat := 0
  num_identity_shapes : Nat := 0
  expression_weights : Option (List ℚ) := none
  identity_weights : Option (List ℚ) := none
  expression_shape_modes : List (List Vec3) := []
  identity_shape_modes : List (List Vec3) := []
deriving DecidableEq, Repr

/-- A freshly constructed `FaceModel()` (all attributes at their
`__init__` values). -/
def FaceModel.init : FaceModel := {}

/-- One iteration body of `_deform_mesh_helper`'s loop over
`zip(weights, shape_modes)`: the contribution `weight * shape_mode`
(numpy scalar broadcast over the `(N, 3)` mode). -/
def scaleMode (weight : ℚ) (shape_mode : List Vec3) : List Vec3 :=
  shape_mode.map (vsmul weight)

/-- The loop of `FaceModel._deform_mesh_helper`: left-to-right over the zipped
`(weight, shape_mode)` pairs, `self._deformed_vertices += weight * shape_mode`. -/
def accumContribs : List Vec3 → List (ℚ × List Vec3) → Except PyErr (List Vec3)
  | dv, [] => .ok dv
  | dv, (weight, shape_mode) :: rest =>
    match broadcastOp vadd dv (scaleMode weight shape_mode) with
    | .error e => .error e
    | .ok dv2 => accumContribs dv2 rest

/-- `FaceModel._deform_mesh_helper(weights, shape_modes)`: loops over
`zip(weights, shape_modes)` adding each `weight * shape_mode` into the
deformed vertex buffer. -/
def deform_mesh_helper (dv : List Vec3) (weights : List ℚ)
    (shape_modes : List (List Vec3)) : Except PyErr (List Vec3) :=
  accumContribs dv (List.zip weights shape_modes)

/-- `FaceModel.reset_mesh()`: raises if the model is not loaded, otherwise
`self._deformed_vertices[:] = self._generic_neutral_mesh.points()`. -/
def reset_mesh (m : FaceModel) : Except PyErr FaceModel :=
  if m.model_loaded then
    match sliceAssign m.deformed_vertices m.generic_neutral_points with
    | .error e => .error e
    | .ok dv => .ok { m with deformed_vertices := dv }
  else .error .notLoaded

/-- `FaceModel.deform_mesh()`: raises if not loaded; otherwise `reset_mesh()`
and then the identity contributions followed by the expression contributions,
each via `_deform_mesh_helper`.  A `None` weight vector would make the Python
`zip` raise `TypeError`. -/
def deform_mesh (m : FaceModel) : Except PyErr FaceModel :=
  if m.model_loaded then
    match reset_mesh m with
    | .error e => .error e
    | .ok m1 =>
      match m1.identity_weights with
      | none => .error .typeError
      | some iw =>
        match deform_mesh_helper m1.deformed_vertices iw m1.identity_shape_modes with
        | .error e => .error e
        | .ok dv1 =>
          match m1.expression_weights with
          | none => .error .typeError
          | some ew =>
            match deform_mesh_helper dv1 ew m1.expression_shape_modes with
            | .error e => .error e
            | .ok dv2 => .ok { m1 with deformed_vertices := dv2 }
  else .error .notLoaded

/-- `FaceModel.set_identity(identity_weights)`: when loaded,
`self._identity_weights[:] = identity_weights[:self._num_identities]`
(head slice, then numpy slice assignment); when not loaded, plain attribute
assignment.  Slice assignment on a `None` attribute would raise `TypeError`. -/
def set_identity (m : FaceModel) (identity_weights : List ℚ) :
    Except PyErr FaceModel :=
  if m.model_loaded then
    match m.identity_weights with
    | none => .error .typeError
    | some stored =>
      match sliceAssign stored (identity_weights.take m.num_identities) with
      | .error e => .error e
      | .ok w => .ok { m with identity_weights := some w }
  else .ok { m with identity_weights := some identity_weights }

/-- `FaceModel.set_expression(expression_weights)`: when loaded the source does
`self._expression_weights[:] = expression_weights[num_exs:]` — a TAIL slice
(`drop`), unlike the head slice in `set_identity`; when not loaded, plain
attribute assignment. -/
def set_expression (m : FaceModel) (expression_weights : List ℚ) :
    Except PyErr FaceModel :=
  if m.model_loaded then
    match m.expression_weights with
    | none => .error .typeError
    | some stored =>
      match sliceAssign stored (expression_weights.drop m.num_expressions) with
      | .error e => .error e
      | .ok w => .ok { m with expression_weights := some w }
  else .ok { m with expression_weights := some expression_weights }

/-- Models `np.random.normal(size=n)`: a vector of `n` independent draws from
the standard-normal sampler `sample` (the distribution itself lives in numpy;
the sampler is threaded as an explicit source, one fresh draw per index). -/
def np_random_normal (sample : Nat → ℚ) (size : Nat) : List ℚ :=
  (List.range size).map sample

/-- `FaceModel.randomize_identity()`: raises if not loaded, otherwise
`self._identity_weights = np.random.normal(size=self._num_identities)` —
an outright replacement of the weight vector. -/
def randomize_identity (m : FaceModel) (sample : Nat → ℚ) :
    Except PyErr FaceModel :=
  if m.model_loaded then
    .ok { m with identity_weights := some (np_random_normal sample m.num_identities) }
  else .error .notLoaded

/-- `FaceModel.get_deformed_mesh()`: raises if not loaded, otherwise returns
the deformed mesh (represented by its vertex array). -/
def get_deformed_mesh (m : FaceModel) : Except PyErr (List Vec3) :=
  if m.model_loaded then .ok m.deformed_vertices
  else .error .notLoaded

/-- One shape mode of `_compute_shape_modes` / `_compute_shape_mode_deltas`:
the row of the preallocated `np.zeros((K, N, 3))` is filled by
`shape_mode[:] = mesh.points() - generic_neutral_mesh.points()` — an
elementwise numpy subtraction (with broadcasting) followed by a full-slice
assignment into the length-`N` zero row. -/
def compute_shape_mode (neutralPts meshPts : List Vec3) :
    Except PyErr (List Vec3) :=
  match broadcastOp vsub meshPts neutralPts with
  | .error e => .error e
  | .ok delta => sliceAssign (List.replicate neutralPts.length vzero) delta

/-- The loop of `_compute_shape_modes` / `_compute_shape_mode_deltas` over
`zip(meshes, shape_modes)`: one shape mode per morph-target mesh, in order,
aborting at the first numpy error. -/
def compute_shape_modes (neutralPts : List Vec3) :
    List (List Vec3) → Except PyErr (List (List Vec3))
  | [] => .ok []
  | meshPts :: rest =>
    match compute_shape_mode neutralPts meshPts with
    | .error e => .error e
    | .ok sm =>
      match compute_shape_modes neutralPts rest with
      | .error e => .error e
      | .ok sms => .ok (sm :: sms)

/-- A model directory: the readable mesh files, as
(file name, vertex array read from the file) in directory-listing order. -/
abbrev Directory := List (String × List Vec3)

/-- The `.obj` extension appended to every morph-target name. -/
def objExt : String := ".obj"

/-- The fixed file name of the generic neutral mesh. -/
def neutralMeshFile : String := "generic_neutral_mesh.obj"

/-- The name stem of identity morph targets. -/
def identityStem : String := "identity"

/-- `'identity{:03d}'.format(n)`: zero-padded to at least three digits. -/
def identityName (n : Nat) : String :=
  identityStem ++
    (if n < 10 then "00" ++ toString n
     else if n < 100 then "0" ++ toString n
     else toString n)

/-- The probed file name `'identity{:03d}'.format(n) + ".obj"`. -/
def identityFileName (n : Nat) : String := identityName n ++ objExt

/-- `openmesh.read_polymesh` against a model directory: returns the vertex
array of the named file, or fails when the file is absent. -/
def read_polymesh (dir : Directory) (fileName : String) :
    Except PyErr (List Vec3) :=
  match dir.lookup fileName with
  | some pts => .ok pts
  | none => .error (.readMeshError fileName)

/-- `_DirectoryModelLoader._read_expression_morph_targets(expression_names)`:
reads `<name>.obj` for each configured expression name in configuration order;
a missing file aborts the whole read. -/
def read_expression_morph_targets (dir : Directory) :
    List String → Except PyErr (List String × List (List Vec3))
  | [] => .ok ([], [])
  | exName :: rest =>
    match read_polymesh dir (exName ++ objExt) with
    | .error e => .error e
    | .ok mesh =>
      match read_expression_morph_targets dir rest with
      | .error e => .error e
      | .ok (ns, ms) => .ok (exName :: ns, mesh :: ms)

/-- The `while True` loop of
`_DirectoryModelLoader._read_identity_morph_targets`: probe
`identity000.obj`, `identity001.obj`, … and `break` at the first read failure.
The loop body is reproduced exactly; since each successful probe names a
distinct file present in the directory, the loop runs at most `dir.length`
iterations before a probe fails, so it is embedded with that much fuel. -/
def read_identity_morph_targets_loop (dir : Directory) :
    Nat → Nat → List String × List (List Vec3)
  | 0, _ => ([], [])
  | fuel + 1, identityNum =>
    match read_polymesh dir (identityFileName identityNum) with
    | .error _ => ([], [])
    | .ok mesh =>
      let (ns, ms) := read_identity_morph_targets_loop dir fuel (identityNum + 1)
      (identityName identityNum :: ns, mesh :: ms)

/-- `_DirectoryModelLoader._read_identity_morph_targets()`: the contiguous
identity scan starting at index 0. -/
def read_identity_morph_targets (dir : Directory) :
    List String × List (List Vec3) :=
  read_identity_morph_targets_loop dir (dir.length + 1) 0

/-- The `expressions` array of the model configuration document
(`vertex_indices.json`), as consumed by both loaders. -/
structure ModelConfig where
  expressions : List String
deriving DecidableEq, Repr

/-- `face_model_io._DirectoryModelLoader.load_model()` (the body of
`face_model_io.load_face_model`): builds a fresh `FaceModel()`, reads the
neutral mesh, the configured expressions and the scanned identities, zero
weight vectors, and the two shape-mode sets.  It sets `_model_initialized`,
`_num_expression_shapes` and `_num_identity_shapes`; it never writes
`_model_loaded`, `_num_expressions` or `_num_identities`, which keep their
`FaceModel.__init__` values. -/
def load_model (dir : Directory) (config : ModelConfig) :
    Except PyErr FaceModel :=
  match read_polymesh dir neutralMeshFile with
  | .error e => .error e
  | .ok neutral =>
    match read_expression_morph_targets dir config.expressions with
    | .error e => .error e
    | .ok (exNames, exMeshes) =>
      let (idNames, idMeshes) := read_identity_morph_targets dir
      match compute_shape_modes neutral exMeshes with
      | .error e => .error e
      | .ok exModes =>
        match compute_shape_modes neutral idMeshes with
        | .error e => .error e
        | .ok idModes =>
          .ok { FaceModel.init with
                model_initialized := true
                generic_neutral_points := neutral
                deformed_vertices := neutral
                expression_names := exNames
                identity_names := idNames
                num_expression_shapes := exNames.length
                num_identity_shapes := idNames.length
                expression_weights := some (List.replicate exNames.length 0)
                identity_weights := some (List.replicate idNames.length 0)
                expression_shape_modes := exModes
                identity_shape_modes := idModes }

/-- `str.startswith(p)` over the character list (kernel-reducible). -/
def strStartsWith (s p : String) : Bool := p.data.isPrefixOf s.data

/-- `str.endswith(p)` over the character list (kernel-reducible). -/
def strEndsWith (s p : String) : Bool := p.data.isSuffixOf s.data

/-- Drop the last `n` characters (kernel-reducible). -/
def strDropRight (s : String) (n : Nat) : String :=
  ⟨s.data.take (s.data.length - n)⟩

/-- `FaceModel._read_identities` of `ict_face_model.py`: iterates
`os.listdir(self._model_path)` (directory-listing order) and reads every file
whose `os.path.splitext` name starts with `identity` and whose extension is
`.obj` — directory-listing semantics, unlike the loader's contiguous scan. -/
def read_identities_listing : Directory → List String × List (List Vec3)
  | [] => ([], [])
  | (fileName, mesh) :: rest =>
    let (ns, ms) := read_identities_listing rest
    if strEndsWith fileName objExt &&
        strStartsWith (strDropRight fileName objExt.length) identityStem then
      (strDropRight fileName objExt.length :: ns, mesh :: ms)
    else (ns, ms)

/-- `ict_face_model.FaceModel.load_model(model_path)` run on the instance `m`:
reads the neutral mesh, the configured expressions and the listed identities,
merges any weights that were set before loading
(`weights[:] = prior[:count]`, else zeros), computes both shape-mode sets and
sets `_model_loaded = True`. -/
def load_model_ict (m : FaceModel) (dir : Directory) (config : ModelConfig) :
    Except PyErr FaceModel :=
  match read_polymesh dir neutralMeshFile with
  | .error e => .error e
  | .ok neutral =>
    match read_expression_morph_targets dir config.expressions with
    | .error e => .error e
    | .ok (exNames, exMeshes) =>
      let (idNames, idMeshes) := read_identities_listing dir
      match (match m.expression_weights with
             | none => Except.ok (List.replicate exNames.length (0 : ℚ))
             | some prior =>
               sliceAssign (List.replicate exNames.length (0 : ℚ))
                 (prior.take exNames.length)) with
      | .error e => .error e
      | .ok exW =>
        match (match m.identity_weights with
               | none => Except.ok (List.replicate idNames.length (0 : ℚ))
               | some prior =>
                 sliceAssign (List.replicate idNames.length (0 : ℚ))
                   (prior.take idNames.length)) with
        | .error e => .error e
        | .ok idW =>
          match compute_shape_modes neutral exMeshes with
          | .error e => .error e
          | .ok exModes =>
            match compute_shape_modes neutral idMeshes with
            | .error e => .error e
            | .ok idModes =>
              .ok { m with
                    model_loaded := true
                    generic_neutral_points := neutral
                    deformed_vertices := neutral
                    expression_names := exNames
                    identity_names := idNames
                    num_expressions := exNames.length
                    num_identities := idNames.length
                    expression_weights := some exW
                    identity_weights := some idW
                    expression_shape_modes := exModes
                    identity_shape_modes := idModes }

/-- A parsed JSON document as returned by `json.load` (numbers over `ℚ`). -/
inductive Json where
  | null
  | bool (b : Bool)
  | num (q : ℚ)
  | str (s : String)
  | arr (elems : List Json)
  | obj (fields : List (String × Json))
deriving Repr

/-- Whether a JSON value is a number. -/
def Json.isNum : Json → Bool
  | .num _ => true
  | _ => false

/-- Whether a JSON value is an array. -/
def Json.isArr : Json → Bool
  | .arr _ => true
  | _ => false

/-- The numeric payload of a JSON number. -/
def Json.asNum : Json → Option ℚ
  | .num q => some q
  | _ => none

/-- A numpy array as produced by `np.array` on a coefficients field. -/
inductive NpValue where
  /-- a 1-D numeric array, from a flat list of numbers. -/
  | numeric1d (xs : List ℚ)
  /-- a 1-D non-numeric array (object/str dtype), from any other flat list. -/
  | object1d (xs : List Json)
  /-- a 0-d array wrapping a scalar (string, number, bool, null). -/
  | scalar (j : Json)
deriving Repr

/-- Models `np.array(value)` on the value shapes a coefficients document can
hold.  A flat list of numbers yields a 1-D numeric array; any other flat list
yields a non-numeric 1-D array WITHOUT error; a scalar yields a 0-d array
WITHOUT error — `np.array` performs no validation that its input is a numeric
array.  Nested lists (absent from every claim) are conservatively mapped to
numpy's ragged-sequence failure. -/
def np_array (j : Json) : Except PyErr NpValue :=
  match j with
  | .arr xs =>
    if xs.all Json.isNum then .ok (.numeric1d (xs.filterMap Json.asNum))
    else if xs.any Json.isArr then .error .raggedArray
    else .ok (.object1d xs)
  | other => .ok (.scalar other)

/-- The key of the identity coefficients field. -/
def idKey : String := "identity_coefficients"

/-- The key of the expression coefficients field. -/
def exKey : String := "expression_coefficients"

/-- `face_model_io.read_coefficients(file_path)`, applied to the parsed
document: `np.array(doc['identity_coefficients'])` then
`np.array(doc['expression_coefficients'])`; a missing key raises `KeyError`,
subscripting a non-object document raises `TypeError`. -/
def read_coefficients (doc : Json) : Except PyErr (NpValue × NpValue) :=
  match doc with
  | .obj kvs =>
    match kvs.lookup idKey with
    | none => .error (.keyError idKey)
    | some jid =>
      match np_array jid with
      | .error e => .error e
      | .ok idCoeffs =>
        match kvs.lookup exKey with
        | none => .error (.keyError exKey)
        | some jex =>
          match np_array jex with
          | .error e => .error e
          | .ok exCoeffs => .ok (idCoeffs, exCoeffs)
  | _ => .error .typeError

/-- A flat (non-nested) JSON value: a scalar, or an array none of whose
elements is itself an array — the shapes `np_array` models without failure. -/
def Json.flat : Json → Bool
  | .arr xs => !xs.any Json.isArr
  | _ => true

/-- The ordered sum `Σ_i weight_i · mode_i[v]` of the weighted shape-mode
contributions at vertex `v`, accumulated head-first exactly as
`_deform_mesh_helper` traverses `zip(weights, shape_modes)`. -/
def sumContrib : List (ℚ × List Vec3) → Nat → Vec3
  | [], _ => vzero
  | (weight, shape_mode) :: rest, v =>
    vadd (vsmul weight (shape_mode.getD v vzero)) (sumContrib rest v)

/-- A concrete loaded one-identity, one-expression model on two vertices,
used by the deformation witnesses. -/
def loadedModelW : FaceModel :=
  { model_loaded := true
    generic_neutral_points := [(0, 0, 0), (1, 0, 0)]
    deformed_vertices := [(0, 0, 0), (1, 0, 0)]
    expression_names := [identityStem]
    identity_names := [identityName 0]
    num_expressions := 1
    num_identities := 1
    expression_weights := some [3]
    identity_weights := some [2]
    expression_shape_modes := [[(0, 0, 1), (0, 0, 0)]]
    identity_shape_modes := [[(1, 0, 0), (0, 1, 0)]] }

/-- A concrete model directory for exercising `ict_face_model.load_model`:
just the neutral mesh — no expressions configured, no identities present. -/
def dirIctW : Directory := [(neutralMeshFile, [vzero])]

/-- A configuration with an empty expression list. -/
def configW : ModelConfig := ⟨[]⟩

/-- The model `ict_face_model.load_model` produces from `dirIctW` / `configW`
on a fresh instance (checked by `decide` in the witnesses that use it). -/
def mLoadedIctW : FaceModel :=
  { FaceModel.init with
    model_loaded := true
    generic_neutral_points := [vzero]
    deformed_vertices := [vzero]
    expression_names := []
    identity_names := []
    num_expressions := 0
    num_identities := 0
    expression_weights := some []
    identity_weights := some [] }

/-- A directory holding `identity000.obj` through `identity002.obj`, no
`identity003.obj`, and a later `identity005.obj` (plus meshes), for the
identity-scan witness. -/
def dirScanW : Directory :=
  [(identityFileName 0, [vzero]), (identityFileName 1, [vzero]),
   (identityFileName 2, [vzero]), (identityFileName 5, [vzero])]

/-- A minimal directory for `face_model_io.load_face_model`: just the neutral
mesh (no expressions configured, no identities present). -/
def dirIoW : Directory := [(neutralMeshFile, [vzero])]

/-- A two-vertex neutral mesh for the mismatch witnesses. -/
def neutralTwoW : List Vec3 := [(0, 0, 0), (1, 0, 0)]

/-- A three-vertex morph target (count 3 ≠ 2 and ≠ 1). -/
def meshThreeW : List Vec3 := [vzero, vzero, vzero]

/-- A one-vertex neutral mesh for the `N = 1` mismatch witness. -/
def neutralOneW : List Vec3 := [vzero]

/-- A two-vertex morph target against the one-vertex neutral mesh. -/
def meshTwoW : List Vec3 := [vzero, vzero]

/-- The model `face_model_io._DirectoryModelLoader.load_model` produces from
`dirIoW` / `configW` (checked by `decide` in the witness that uses it). -/
def mIoW : FaceModel :=
  { FaceModel.init with
    model_initialized := true
    generic_neutral_points := [vzero]
    deformed_vertices := [vzero]
    num_expression_shapes := 0
    num_identity_shapes := 0
    expression_weights := some []
    identity_weights := some [] }

/-- A loaded model with one expression mode and stored expression weights
`[0]`, exhibiting the `set_expression` tail-slice failure. -/
def mExprBug : FaceModel :=
  { FaceModel.init with
    model_loaded := true
    num_expressions := 1
    num_identities := 1
    expression_weights := some [0]
    identity_weights := some [0] }

/-- The string payload of the non-numeric coefficients field used as the C7
counterexample input. -/
def oopsVal : String := "oops"

/-- A coefficients document whose identity field is a string, not a numeric
array, and whose expression field is a proper numeric array. -/
def badDoc : Json :=
  .obj [(idKey, .str oopsVal), (exKey, .arr [.num 1, .num 2])]

theorem vadd_vzero (a : Vec3) : vadd a vzero = a := by
  simp [vadd, vzero]

theorem vadd_assoc (a b c : Vec3) : vadd (vadd a b) c = vadd a (vadd b c) := by
  simp [vadd, add_assoc]

theorem vsmul_zero_vec (a : Vec3) : vsmul 0 a = vzero := by
  simp [vsmul, vzero]

theorem getD_zipWith {α : Type} (f : α → α → α) (d : α) :
    ∀ (a b : List α) (v : Nat), v < a.length → v < b.length →
      (List.zipWith f a b).getD v d = f (a.getD v d) (b.getD v d)
  | [], _, v, hv, _ => absurd hv (by simp)
  | _ :: _, [], v, _, hv => absurd hv (by simp)
  | x :: xs, y :: ys, 0, _, _ => by simp
  | x :: xs, y :: ys, v + 1, hv1, hv2 => by
      simpa using getD_zipWith f d xs ys v (by simpa using hv1) (by simpa using hv2)

theorem getD_map {α : Type} (g : α → α) (d : α) (hd : g d = d) :
    ∀ (l : List α) (v : Nat), (l.map g).getD v d = g (l.getD v d)
  | [], v => by simp [hd]
  | x :: xs, 0 => by simp
  | x :: xs, v + 1 => by simpa using getD_map g d hd xs v

theorem accumContribs_spec :
    ∀ (wms : List (ℚ × List Vec3)) (dv : List Vec3),
      (∀ p ∈ wms, (p.2 : List Vec3).length = dv.length) →
      ∃ r, accumContribs dv wms = .ok r ∧ r.length = dv.length ∧
        ∀ v, v < dv.length →
          r.getD v vzero = vadd (dv.getD v vzero) (sumContrib wms v)
  | [], dv, _ => by
      refine ⟨dv, rfl, rfl, fun v _ => ?_⟩
      simp [sumContrib, vadd_vzero]
  | (w, md) :: rest, dv, h => by
      have hmd : md.length = dv.length := h (w, md) (List.mem_cons_self _ _)
      have hlen : dv.length = (scaleMode w md).length := by
        simp [scaleMode, hmd]
      have hstep : broadcastOp vadd dv (scaleMode w md) =
          .ok (List.zipWith vadd dv (scaleMode w md)) := by
        simp [broadcastOp, hlen]
      have hlen2 : (List.zipWith vadd dv (scaleMode w md)).length = dv.length := by
        rw [List.length_zipWith, ← hlen, min_self]
      obtain ⟨r, hr, hrlen, hrget⟩ :=
        accumContribs_spec rest (List.zipWith vadd dv (scaleMode w md))
          (fun p hp => by rw [hlen2]; exact h p (List.mem_cons_of_mem _ hp))
      refine ⟨r, ?_, by rw [hrlen, hlen2], fun v hv => ?_⟩
      · simpa [accumContribs, hstep] using hr
      · have hv2 : v < (List.zipWith vadd dv (scaleMode w md)).length := by
          rw [hlen2]; exact hv
        have hvs : v < (scaleMode w md).length := by rw [← hlen]; exact hv
        rw [hrget v hv2,
          getD_zipWith vadd vzero dv (scaleMode w md) v hv hvs]
        have : (scaleMode w md).getD v vzero = vsmul w (md.getD v vzero) := by
          simpa [scaleMode] using
            getD_map (vsmul w) vzero (by simp [vsmul, vzero]) md v
        rw [this, sumContrib, vadd_assoc]

/-- C2: for every neutral mesh with `N` vertices and every morph-target mesh
with `N` vertices, the computed shape mode is an `N`-length array of 3-D
vectors whose entry `i` equals the morph target's vertex `i` minus the neutral
mesh's vertex `i`, componentwise, with no clamping or normalization. -/
theorem compute_shape_mode_is_componentwise_delta
    (neutralPts meshPts : List Vec3)
    (h : meshPts.length = neutralPts.length) :
    compute_shape_mode neutralPts meshPts =
      .ok (List.zipWith vsub meshPts neutralPts) ∧
    (List.zipWith vsub meshPts neutralPts).length = neutralPts.length ∧
    ∀ i, i < neutralPts.length →
      (List.zipWith vsub meshPts neutralPts).getD i vzero =
        vsub (meshPts.getD i vzero) (neutralPts.getD i vzero) := by
  have hlen : (List.zipWith vsub meshPts neutralPts).length = neutralPts.length := by
    rw [List.length_zipWith, h, min_self]
  refine ⟨?_, hlen, fun i hi => ?_⟩
  · simp [compute_shape_mode, broadcastOp, h, sliceAssign, hlen]
  · exact getD_zipWith vsub vzero meshPts neutralPts i (by rw [h]; exact hi) hi

/-- Witness for C2 at a concrete two-vertex neutral mesh and morph target. -/
theorem compute_shape_mode_is_componentwise_delta_witness :
    compute_shape_mode [((0, 0, 0) : Vec3), ((1, 2, 3) : Vec3)]
        [((1, 0, 0) : Vec3), ((1, 2, 7) : Vec3)] =
      .ok (List.zipWith vsub [((1, 0, 0) : Vec3), ((1, 2, 7) : Vec3)]
        [((0, 0, 0) : Vec3), ((1, 2, 3) : Vec3)]) ∧
    (List.zipWith vsub [((1, 0, 0) : Vec3), ((1, 2, 7) : Vec3)]
        [((0, 0, 0) : Vec3), ((1, 2, 3) : Vec3)]).length =
      ([((0, 0, 0) : Vec3), ((1, 2, 3) : Vec3)] : List Vec3).length ∧
    ∀ i, i < ([((0, 0, 0) : Vec3), ((1, 2, 3) : Vec3)] : List Vec3).length →
      (List.zipWith vsub [((1, 0, 0) : Vec3), ((1, 2, 7) : Vec3)]
          [((0, 0, 0) : Vec3), ((1, 2, 3) : Vec3)]).getD i vzero =
        vsub (([((1, 0, 0) : Vec3), ((1, 2, 7) : Vec3)] : List Vec3).getD i vzero)
          (([((0, 0, 0) : Vec3), ((1, 2, 3) : Vec3)] : List Vec3).getD i vzero) :=
  compute_shape_mode_is_componentwise_delta _ _ (by decide)

/-- C10: for every stored weight vector, regardless of its length relative to
the number of shape modes, `_deform_mesh_helper` never fails and never indexes
out of bounds: it folds over `zip(weights, shape_modes)`, so exactly
`min(weights.length, shape_modes.length)` modes contribute and any excess
weights or modes are silently ignored. -/
theorem deform_helper_never_fails_min_zip
    (dv : List Vec3) (weights : List ℚ) (modes : List (List Vec3))
    (hm : ∀ md ∈ modes, md.length = dv.length) :
    ∃ r, deform_mesh_helper dv weights modes = .ok r ∧
      r.length = dv.length ∧
      (List.zip weights modes).length = min weights.length modes.length ∧
      ∀ v, v < dv.length →
        r.getD v vzero =
          vadd (dv.getD v vzero) (sumContrib (List.zip weights modes) v) := by
  obtain ⟨r, hr, hrlen, hrget⟩ :=
    accumContribs_spec (List.zip weights modes) dv
      (fun p hp => hm p.2 (List.of_mem_zip hp).2)
  exact ⟨r, hr, hrlen, List.length_zip weights modes, hrget⟩

/-- Witness for C10: three weights against two modes contribute exactly
`min 3 2 = 2` modes and succeed. -/
theorem deform_helper_never_fails_min_zip_witness :
    ∃ r, deform_mesh_helper [((0, 0, 0) : Vec3)] [(1 : ℚ), 2, 3]
        [[((1, 0, 0) : Vec3)], [((0, 1, 0) : Vec3)]] = .ok r ∧
      r.length = ([((0, 0, 0) : Vec3)] : List Vec3).length ∧
      (List.zip [(1 : ℚ), 2, 3]
        [[((1, 0, 0) : Vec3)], [((0, 1, 0) : Vec3)]]).length =
        min ([(1 : ℚ), 2, 3] : List ℚ).length
          ([[((1, 0, 0) : Vec3)], [((0, 1, 0) : Vec3)]] : List (List Vec3)).length ∧
      ∀ v, v < ([((0, 0, 0) : Vec3)] : List Vec3).length →
        r.getD v vzero =
          vadd (([((0, 0, 0) : Vec3)] : List Vec3).getD v vzero)
            (sumContrib (List.zip [(1 : ℚ), 2, 3]
              [[((1, 0, 0) : Vec3)], [((0, 1, 0) : Vec3)]]) v) :=
  deform_helper_never_fails_min_zip _ _ _ (by decide)

/-- C1: for every loaded face model, `deform_mesh()` first resets the deformed
vertex buffer to the neutral mesh's vertices and then accumulates, in this
fixed order, the identity contributions followed by the expression
contributions, so that afterward
`buffer[v] = neutral[v] + Σ_i id_weight[i]·id_mode[i][v]
                        + Σ_j ex_weight[j]·ex_mode[j][v]`
for every vertex `v` (the two sums are `sumContrib`, the left-to-right
accumulation order of the code; the nesting records identities first). -/
theorem deform_mesh_accumulates_neutral_plus_modes
    (m : FaceModel) (iw ew : List ℚ)
    (hload : m.model_loaded = true)
    (hiw : m.identity_weights = some iw)
    (hew : m.expression_weights = some ew)
    (hdv : m.deformed_vertices.length = m.generic_neutral_points.length)
    (hleni : iw.length = m.identity_shape_modes.length)
    (hlene : ew.length = m.expression_shape_modes.length)
    (hid : ∀ md ∈ m.identity_shape_modes,
      md.length = m.generic_neutral_points.length)
    (hex : ∀ md ∈ m.expression_shape_modes,
      md.length = m.generic_neutral_points.length) :
    ∃ m', deform_mesh m = .ok m' ∧
      m'.deformed_vertices.length = m.generic_neutral_points.length ∧
      ∀ v, v < m.generic_neutral_points.length →
        m'.deformed_vertices.getD v vzero =
          vadd (vadd (m.generic_neutral_points.getD v vzero)
                  (sumContrib (List.zip iw m.identity_shape_modes) v))
            (sumContrib (List.zip ew m.expression_shape_modes) v) := by
  have hreset : reset_mesh m =
      .ok { m with deformed_vertices := m.generic_neutral_points } := by
    simp [reset_mesh, hload, sliceAssign, hdv]
  obtain ⟨r1, hr1, hr1len, hr1get⟩ :=
    accumContribs_spec (List.zip iw m.identity_shape_modes)
      m.generic_neutral_points (fun p hp => hid p.2 (List.of_mem_zip hp).2)
  obtain ⟨r2, hr2, hr2len, hr2get⟩ :=
    accumContribs_spec (List.zip ew m.expression_shape_modes) r1
      (fun p hp => by rw [hr1len]; exact hex p.2 (List.of_mem_zip hp).2)
  refine ⟨{ m with deformed_vertices := r2 }, ?_,
    by simpa using hr2len.trans hr1len, fun v hv => ?_⟩
  · simp [deform_mesh, hload, hreset, hiw, hew, deform_mesh_helper, hr1, hr2]
  · have hv1 : v < r1.length := by rw [hr1len]; exact hv
    calc (({ m with deformed_vertices := r2 } : FaceModel).deformed_vertices).getD v vzero
        = r2.getD v vzero := rfl
      _ = vadd (r1.getD v vzero)
            (sumContrib (List.zip ew m.expression_shape_modes) v) := hr2get v hv1
      _ = vadd (vadd (m.generic_neutral_points.getD v vzero)
              (sumContrib (List.zip iw m.identity_shape_modes) v))
            (sumContrib (List.zip ew m.expression_shape_modes) v) := by
          rw [hr1get v hv]

/-- Witness for C1 at the concrete loaded model `loadedModelW`. -/
theorem deform_mesh_accumulates_neutral_plus_modes_witness :
    ∃ m', deform_mesh loadedModelW = .ok m' ∧
      m'.deformed_vertices.length = loadedModelW.generic_neutral_points.length ∧
      ∀ v, v < loadedModelW.generic_neutral_points.length →
        m'.deformed_vertices.getD v vzero =
          vadd (vadd (loadedModelW.generic_neutral_points.getD v vzero)
                  (sumContrib (List.zip [(2 : ℚ)] loadedModelW.identity_shape_modes) v))
            (sumContrib (List.zip [(3 : ℚ)] loadedModelW.expression_shape_modes) v) :=
  deform_mesh_accumulates_neutral_plus_modes loadedModelW [2] [3]
    (by decide) (by decide) (by decide) (by decide) (by decide) (by decide)
    (by decide) (by decide)

theorem zipWith_vadd_smul_zero :
    ∀ (dv md : List Vec3), md.length = dv.length →
      List.zipWith vadd dv (scaleMode 0 md) = dv
  | [], [], _ => rfl
  | [], _ :: _, h => by simp at h
  | _ :: _, [], h => by simp at h
  | x :: xs, y :: ys, h => by
      have ih := zipWith_vadd_smul_zero xs ys (by simpa using h)
      simp only [scaleMode, List.map_cons, List.zipWith_cons_cons] at ih ⊢
      refine congrArg₂ (· :: ·) ?_ ih
      simp [vadd, vsmul]

theorem accumContribs_zero :
    ∀ (wms : List (ℚ × List Vec3)) (dv : List Vec3),
      (∀ p ∈ wms, p.1 = (0 : ℚ) ∧ (p.2 : List Vec3).length = dv.length) →
      accumContribs dv wms = .ok dv
  | [], _, _ => rfl
  | (w, md) :: rest, dv, h => by
      obtain ⟨hw, hmd⟩ := h (w, md) (List.mem_cons_self _ _)
      subst hw
      have hlen : dv.length = (scaleMode 0 md).length := by simp [scaleMode, hmd]
      have hstep : broadcastOp vadd dv (scaleMode 0 md) = .ok dv := by
        simp [broadcastOp, hlen, zipWith_vadd_smul_zero dv md hmd]
      simp only [accumContribs, hstep]
      exact accumContribs_zero rest dv fun p hp => h p (List.mem_cons_of_mem _ hp)

/-- Zero-weight deformation: a loaded model with all-zero weight vectors
deforms to exactly the neutral mesh. -/
theorem deform_zero_aux (m : FaceModel) (kid kex : Nat)
    (hload : m.model_loaded = true)
    (hiw : m.identity_weights = some (List.replicate kid 0))
    (hew : m.expression_weights = some (List.replicate kex 0))
    (hdv : m.deformed_vertices.length = m.generic_neutral_points.length)
    (hid : ∀ md ∈ m.identity_shape_modes,
      md.length = m.generic_neutral_points.length)
    (hex : ∀ md ∈ m.expression_shape_modes,
      md.length = m.generic_neutral_points.length) :
    deform_mesh m = .ok { m with deformed_vertices := m.generic_neutral_points } := by
  have hreset : reset_mesh m =
      .ok { m with deformed_vertices := m.generic_neutral_points } := by
    simp [reset_mesh, hload, sliceAssign, hdv]
  have h1 : accumContribs m.generic_neutral_points
      (List.zip (List.replicate kid (0 : ℚ)) m.identity_shape_modes) =
      .ok m.generic_neutral_points :=
    accumContribs_zero _ _ fun p hp =>
      ⟨List.eq_of_mem_replicate (List.of_mem_zip hp).1,
       hid p.2 (List.of_mem_zip hp).2⟩
  have h2 : accumContribs m.generic_neutral_points
      (List.zip (List.replicate kex (0 : ℚ)) m.expression_shape_modes) =
      .ok m.generic_neutral_points :=
    accumContribs_zero _ _ fun p hp =>
      ⟨List.eq_of_mem_replicate (List.of_mem_zip hp).1,
       hex p.2 (List.of_mem_zip hp).2⟩
  simp [deform_mesh, hload, hreset, hiw, hew, deform_mesh_helper, h1, h2]

theorem compute_shape_mode_length (neutralPts meshPts sm : List Vec3)
    (h : compute_shape_mode neutralPts meshPts = .ok sm) :
    sm.length = neutralPts.length := by
  unfold compute_shape_mode at h
  split at h
  · exact absurd h (by simp)
  · next delta hdelta =>
      unfold sliceAssign at h
      split at h
      · next hcond =>
          cases h
          simpa using hcond
      · split at h
        · cases h; simp
        · exact absurd h (by simp)

theorem compute_shape_modes_length (neutralPts : List Vec3) :
    ∀ (ms res : List (List Vec3)),
      compute_shape_modes neutralPts ms = .ok res →
      ∀ md ∈ res, md.length = neutralPts.length
  | [], res, h => by
      cases h; intro md hmd; simp at hmd
  | mp :: rest, res, h => by
      unfold compute_shape_modes at h
      split at h
      · exact absurd h (by simp)
      · next sm hsm =>
          split at h
          · exact absurd h (by simp)
          · next sms hsms =>
              cases h
              intro md hmd
              rcases List.mem_cons.mp hmd with hmd | hmd
              · subst hmd
                exact compute_shape_mode_length neutralPts mp md hsm
              · exact compute_shape_modes_length neutralPts rest sms hsms md hmd

/-- Invariants of a model produced by running `ict_face_model.load_model` on a
freshly constructed `FaceModel()`: the model is loaded, the deformed buffer is
a copy of the neutral vertices, both weight vectors are all zeros of the mode
counts, and every shape mode has one vector per neutral vertex. -/
theorem load_ict_init_spec (dir : Directory) (config : ModelConfig)
    (m : FaceModel) (h : load_model_ict FaceModel.init dir config = .ok m) :
    m.model_loaded = true ∧
    m.deformed_vertices = m.generic_neutral_points ∧
    m.identity_weights = some (List.replicate m.num_identities 0) ∧
    m.expression_weights = some (List.replicate m.num_expressions 0) ∧
    (∀ md ∈ m.identity_shape_modes,
      md.length = m.generic_neutral_points.length) ∧
    (∀ md ∈ m.expression_shape_modes,
      md.length = m.generic_neutral_points.length) := by
  unfold load_model_ict at h
  split at h
  · exact absurd h (by simp)
  · next neutral hneutral =>
      split at h
      · exact absurd h (by simp)
      · next exNames exMeshes hex =>
          simp only [FaceModel.init] at h
          split at h
          · exact absurd h (by simp)
          · next exModes hexModes =>
              split at h
              · exact absurd h (by simp)
              · next idModes hidModes =>
                  cases h
                  refine ⟨rfl, rfl, rfl, rfl, ?_, ?_⟩
                  · exact compute_shape_modes_length neutral _ idModes hidModes
                  · exact compute_shape_modes_length neutral _ exModes hexModes

/-- C8: for every loaded model, `deform_mesh()` with all-zero identity and
expression weight vectors produces a deformed vertex buffer identical to the
neutral mesh's vertices; in particular a freshly constructed model put through
`ict_face_model.FaceModel.load_model` — whose weights are initialized to all
zeros — reconstructs exactly the neutral mesh. -/
theorem deform_mesh_zero_weights_neutral :
    (∀ (m : FaceModel) (kid kex : Nat),
      m.model_loaded = true →
      m.identity_weights = some (List.replicate kid 0) →
      m.expression_weights = some (List.replicate kex 0) →
      m.deformed_vertices.length = m.generic_neutral_points.length →
      (∀ md ∈ m.identity_shape_modes,
        md.length = m.generic_neutral_points.length) →
      (∀ md ∈ m.expression_shape_modes,
        md.length = m.generic_neutral_points.length) →
      ∃ m', deform_mesh m = .ok m' ∧
        m'.deformed_vertices = m.generic_neutral_points) ∧
    (∀ (dir : Directory) (config : ModelConfig) (m : FaceModel),
      load_model_ict FaceModel.init dir config = .ok m →
      ∃ m', deform_mesh m = .ok m' ∧
        m'.deformed_vertices = m.generic_neutral_points) := by
  constructor
  · intro m kid kex hload hiw hew hdv hid hex
    exact ⟨_, deform_zero_aux m kid kex hload hiw hew hdv hid hex, rfl⟩
  · intro dir config m h
    obtain ⟨hload, hdv, hiw, hew, hid, hex⟩ := load_ict_init_spec dir config m h
    exact ⟨_, deform_zero_aux m m.num_identities m.num_expressions hload hiw hew
      (by rw [hdv]) hid hex, rfl⟩

/-- Witness for C8: the loaded model `loadedModelW` with its weights replaced
by zeros deforms back to its neutral vertices, and a concrete directory load
does too. -/
theorem deform_mesh_zero_weights_neutral_witness :
    (∃ m', deform_mesh { loadedModelW with
        identity_weights := some (List.replicate 1 0)
        expression_weights := some (List.replicate 1 0) } = .ok m' ∧
      m'.deformed_vertices =
        ({ loadedModelW with
            identity_weights := some (List.replicate 1 0)
            expression_weights := some (List.replicate 1 0) } :
          FaceModel).generic_neutral_points) ∧
    (∃ m', deform_mesh mLoadedIctW = .ok m' ∧
      m'.deformed_vertices = mLoadedIctW.generic_neutral_points) :=
  ⟨deform_mesh_zero_weights_neutral.1 _ 1 1 (by decide) (by decide) (by decide)
      (by decide) (by decide) (by decide),
   deform_mesh_zero_weights_neutral.2 dirIctW configW mLoadedIctW (by decide)⟩

/-- C9: every `FaceModel` returned by `face_model_io.load_face_model` still
has `_model_loaded = False` (the loader sets the different flag
`_model_initialized`), so each guarded instance operation — `deform_mesh`,
`reset_mesh`, `randomize_identity`, `get_deformed_mesh` — raises the
not-loaded exception on such a model, despite the load having completed. -/
theorem io_loader_leaves_model_loaded_false
    (dir : Directory) (config : ModelConfig) (m : FaceModel)
    (sample : Nat → ℚ) (h : load_model dir config = .ok m) :
    m.model_loaded = false ∧ m.model_initialized = true ∧
    deform_mesh m = .error .notLoaded ∧
    reset_mesh m = .error .notLoaded ∧
    randomize_identity m sample = .error .notLoaded ∧
    get_deformed_mesh m = .error .notLoaded := by
  have hflag : m.model_loaded = false ∧ m.model_initialized = true := by
    unfold load_model at h
    split at h
    · exact absurd h (by simp)
    · split at h
      · exact absurd h (by simp)
      · split at h
        split at h
        · exact absurd h (by simp)
        · split at h
          · exact absurd h (by simp)
          · cases h; exact ⟨rfl, rfl⟩
  refine ⟨hflag.1, hflag.2, ?_, ?_, ?_, ?_⟩ <;>
    simp [deform_mesh, reset_mesh, randomize_identity, get_deformed_mesh,
      hflag.1]

/-- Witness for C9: a concrete directory load whose result model raises the
not-loaded exception on every guarded operation. -/
theorem io_loader_leaves_model_loaded_false_witness :
    mIoW.model_loaded = false ∧ mIoW.model_initialized = true ∧
    deform_mesh mIoW = .error .notLoaded ∧
    reset_mesh mIoW = .error .notLoaded ∧
    randomize_identity mIoW (fun _ => 0) = .error .notLoaded ∧
    get_deformed_mesh mIoW = .error .notLoaded :=
  io_loader_leaves_model_loaded_false dirIoW configW mIoW (fun _ => 0)
    (by decide)

theorem identity_loop_spec (dir : Directory) :
    ∀ (n fuel k : Nat), n < fuel →
      (∀ i, i < n → (dir.lookup (identityFileName (k + i))).isSome = true) →
      dir.lookup (identityFileName (k + n)) = none →
      (read_identity_morph_targets_loop dir fuel k).1 =
        (List.range n).map (fun i => identityName (k + i)) ∧
      (read_identity_morph_targets_loop dir fuel k).2.length = n
  | 0, fuel, k, hfuel, _, hmiss => by
      obtain ⟨f, rfl⟩ := Nat.exists_eq_succ_of_ne_zero (Nat.pos_iff_ne_zero.mp hfuel)
      have hmiss' : dir.lookup (identityFileName k) = none := by simpa using hmiss
      simp [read_identity_morph_targets_loop, read_polymesh, hmiss']
  | n + 1, fuel, k, hfuel, hpres, hmiss => by
      obtain ⟨f, rfl⟩ := Nat.exists_eq_succ_of_ne_zero
        (Nat.pos_iff_ne_zero.mp (Nat.lt_of_le_of_lt (Nat.zero_le _) hfuel))
      have hk : (dir.lookup (identityFileName k)).isSome = true := by
        simpa using hpres 0 (Nat.succ_pos n)
      obtain ⟨mesh, hmesh⟩ := Option.isSome_iff_exists.mp hk
      obtain ⟨ih1, ih2⟩ := identity_loop_spec dir n f (k + 1)
        (Nat.lt_of_succ_lt_succ hfuel)
        (fun i hi => by
          have := hpres (i + 1) (Nat.succ_lt_succ hi)
          simpa [Nat.add_assoc, Nat.add_comm 1 i] using this)
        (by
          have : k + 1 + n = k + (n + 1) := by omega
          rw [this]; exact hmiss)
      have hrange : (List.range (n + 1)).map (fun i => identityName (k + i)) =
          identityName k ::
            (List.range n).map (fun i => identityName (k + 1 + i)) := by
        rw [List.range_succ_eq_map, List.map_cons, List.map_map]
        refine congrArg₂ (· :: ·) (by simp) (List.map_congr_left fun i _ => ?_)
        simp [Function.comp]
        congr 1
        omega
      constructor
      · simp only [read_identity_morph_targets_loop, read_polymesh, hmesh,
          hrange]
        exact congrArg₂ (· :: ·) rfl ih1
      · simp only [read_identity_morph_targets_loop, read_polymesh, hmesh,
          List.length_cons]
        rw [ih2]

/-- C4: the loader's identity scan probes numerically suffixed names starting
at index 0 (`identity000`, `identity001`, …) in strictly ascending contiguous
order and stops at the first missing index without error: if the directory
contains `identity000.obj` … `identity(n-1).obj` but no `identity n` file,
the scan yields exactly the first `n` identity names and `n` meshes,
regardless of any later identity files (such as an `identity005`) also being
present. -/
theorem identity_scan_stops_at_first_missing_index
    (dir : Directory) (n : Nat) (hn : n ≤ dir.length)
    (hpres : ∀ i, i < n → (dir.lookup (identityFileName i)).isSome = true)
    (hmiss : dir.lookup (identityFileName n) = none) :
    (read_identity_morph_targets dir).1 = (List.range n).map identityName ∧
    (read_identity_morph_targets dir).2.length = n := by
  obtain ⟨h1, h2⟩ := identity_loop_spec dir n (dir.length + 1) 0
    (Nat.lt_succ_of_le hn) (fun i hi => by simpa using hpres i hi)
    (by simpa using hmiss)
  exact ⟨by simpa using h1, h2⟩

/-- Witness for C4: a directory with `identity000`–`identity002`, no
`identity003`, and a later `identity005` yields exactly the 3 contiguous
identities. -/
theorem identity_scan_stops_at_first_missing_index_witness :
    (read_identity_morph_targets dirScanW).1 =
      (List.range 3).map identityName ∧
    (read_identity_morph_targets dirScanW).2.length = 3 :=
  identity_scan_stops_at_first_missing_index dirScanW 3 (by decide)
    (by decide) (by decide)

/-- C6: `randomize_identity()` fails with the not-loaded error whenever the
model is not loaded, and when the model is loaded it replaces the identity
weight vector outright with a length-`K_id` vector of fresh draws from the
standard-normal sampler (`np.random.normal(size=K_id)`), without blending
with the prior weights. -/
theorem randomize_identity_replaces_weights (m : FaceModel)
    (sample : Nat → ℚ) :
    (m.model_loaded = false →
      randomize_identity m sample = .error .notLoaded) ∧
    (m.model_loaded = true →
      randomize_identity m sample =
        .ok { m with identity_weights := some (np_random_normal sample m.num_identities) } ∧
      (np_random_normal sample m.num_identities).length = m.num_identities) := by
  constructor
  · intro hload; simp [randomize_identity, hload]
  · intro hload
    exact ⟨by simp [randomize_identity, hload], by simp [np_random_normal]⟩

/-- Witness for C6 at the loaded model `loadedModelW` (and, via the first
conjunct vacuously holding, the unloaded case is exercised by
`randomize_identity_replaces_weights FaceModel.init` inside the proof). -/
theorem randomize_identity_replaces_weights_witness :
    ((loadedModelW.model_loaded = false →
        randomize_identity loadedModelW (fun _ => 0) = .error .notLoaded) ∧
      (loadedModelW.model_loaded = true →
        randomize_identity loadedModelW (fun _ => 0) =
          .ok { loadedModelW with identity_weights := some (np_random_normal (fun _ => 0) loadedModelW.num_identities) } ∧
        (np_random_normal (fun _ => 0) loadedModelW.num_identities).length =
          loadedModelW.num_identities)) ∧
    ((FaceModel.init.model_loaded = false →
        randomize_identity FaceModel.init (fun _ => 0) = .error .notLoaded) ∧
      (FaceModel.init.model_loaded = true →
        randomize_identity FaceModel.init (fun _ => 0) =
          .ok { FaceModel.init with identity_weights := some (np_random_normal (fun _ => 0) FaceModel.init.num_identities) } ∧
        (np_random_normal (fun _ => 0) FaceModel.init.num_identities).length =
          FaceModel.init.num_identities)) :=
  ⟨randomize_identity_replaces_weights loadedModelW (fun _ => 0),
   randomize_identity_replaces_weights FaceModel.init (fun _ => 0)⟩

/-- C5 (code bug): on a loaded model with one expression mode and stored
expression weights `[0]`, `set_expression([5])` executes
`self._expression_weights[:] = [5][num_exs:]` — the TAIL slice `[5][1:] = []`
— and raises a numpy broadcast `ValueError` instead of storing the head slice
`[5]`; the analogous `set_identity` on the same shape of input performs the
head slice and stores `[5]` as the claim describes. -/
theorem set_expression_tail_slice_bug :
    set_expression mExprBug [5] = .error (.broadcastMismatch 1 0) ∧
    set_identity mExprBug [5] =
      .ok { mExprBug with identity_weights := some [5] } := by
  constructor
  · decide
  · decide

theorem broadcastOp_error {α : Type} (f : α → α → α) (a b : List α)
    (hne : a.length ≠ b.length) (ha : a.length ≠ 1) (hb : b.length ≠ 1) :
    broadcastOp f a b = .error (.broadcastMismatch a.length b.length) := by
  unfold broadcastOp
  rw [if_neg hne]
  match a, b with
  | [], [] => exact absurd rfl hne
  | [], [_] => exact absurd rfl hb
  | [], _ :: _ :: _ => rfl
  | [_], _ => exact absurd rfl ha
  | _ :: _ :: _, [] => rfl
  | _ :: _ :: _, [_] => exact absurd rfl hb
  | _ :: _ :: _, _ :: _ :: _ => rfl

theorem compute_shape_modes_ok_mem (neutralPts : List Vec3) :
    ∀ (ms res : List (List Vec3)),
      compute_shape_modes neutralPts ms = .ok res →
      ∀ mp ∈ ms, ∃ sm, compute_shape_mode neutralPts mp = .ok sm
  | [], _, _, mp, hmp => by simp at hmp
  | m0 :: rest, res, h, mp, hmp => by
      unfold compute_shape_modes at h
      split at h
      · exact absurd h (by simp)
      · next sm hsm =>
          split at h
          · exact absurd h (by simp)
          · next sms hsms =>
              rcases List.mem_cons.mp hmp with hmp | hmp
              · subst hmp; exact ⟨sm, hsm⟩
              · exact compute_shape_modes_ok_mem neutralPts rest sms hsms mp hmp

/-- C3 counterexample: a morph target with 1 vertex against a 2-vertex
neutral mesh has a mismatched vertex count, yet shape-mode computation does
NOT fail — numpy silently broadcasts the single vertex and returns a
2-row shape mode. -/
theorem compute_shape_mode_mismatch_not_always_error :
    (([((5 : ℚ), (0 : ℚ), (0 : ℚ))] : List Vec3).length ≠
      ([((0, 0, 0) : Vec3), ((1, 0, 0) : Vec3)] : List Vec3).length) ∧
    compute_shape_mode [((0, 0, 0) : Vec3), ((1, 0, 0) : Vec3)]
        [((5 : ℚ), (0 : ℚ), (0 : ℚ))] =
      .ok [((5, 0, 0) : Vec3), ((4, 0, 0) : Vec3)] := by
  refine ⟨by decide, ?_⟩
  norm_num [compute_shape_mode, broadcastOp, sliceAssign, vsub, vzero]

theorem sliceAssign_error {α : Type} (dst src : List α)
    (hne : src.length ≠ dst.length) (h1 : src.length ≠ 1) :
    sliceAssign dst src = .error (.broadcastMismatch dst.length src.length) := by
  unfold sliceAssign
  rw [if_neg hne]
  match src with
  | [] => rfl
  | [x] => exact absurd rfl h1
  | _ :: _ :: _ => rfl

theorem broadcastOp_singleton_right {α : Type} (f : α → α → α) (a : List α)
    (y : α) (ha : a.length ≠ 1) :
    broadcastOp f a [y] = .ok (a.map (fun x => f x y)) := by
  unfold broadcastOp
  rw [if_neg (by simpa using ha)]
  match a, ha with
  | [], _ => rfl
  | [x], ha => exact absurd rfl ha
  | _ :: _ :: _, _ => rfl

/-- C3 amended: for every morph-target mesh whose vertex count differs from
the neutral mesh's count `N` and is not 1, shape-mode computation fails with
numpy's broadcast `ValueError` — raised by the elementwise subtraction when
`N ≠ 1` (carrying the mesh and neutral lengths), and by the row
slice-assignment when `N = 1` (carrying the row length 1 and the mesh
length); the error carries array lengths, never the offending asset's name,
and any shape-mode batch containing that mesh fails, so the load aborts with
no model returned.  (A morph target with exactly one vertex instead
broadcasts silently — the counterexample.) -/
theorem compute_shape_mode_mismatch_broadcast_error
    (neutralPts meshPts : List Vec3)
    (hne : meshPts.length ≠ neutralPts.length)
    (hm1 : meshPts.length ≠ 1) :
    (neutralPts.length = 1 →
      compute_shape_mode neutralPts meshPts =
        .error (.broadcastMismatch 1 meshPts.length)) ∧
    (neutralPts.length ≠ 1 →
      compute_shape_mode neutralPts meshPts =
        .error (.broadcastMismatch meshPts.length neutralPts.length)) ∧
    (∃ dstLen srcLen, compute_shape_mode neutralPts meshPts =
      .error (.broadcastMismatch dstLen srcLen)) ∧
    ∀ ms : List (List Vec3), meshPts ∈ ms →
      ∀ res, compute_shape_modes neutralPts ms ≠ .ok res := by
  have h1 : neutralPts.length = 1 →
      compute_shape_mode neutralPts meshPts =
        .error (.broadcastMismatch 1 meshPts.length) := by
    intro hN1
    obtain ⟨y, rfl⟩ := List.length_eq_one.mp hN1
    have hb := broadcastOp_singleton_right vsub meshPts y hm1
    have hsa := sliceAssign_error (List.replicate 1 vzero)
      (meshPts.map (fun x => vsub x y)) (by simpa using hm1)
      (by simpa using hm1)
    simp only [compute_shape_mode, List.length_singleton, hb, hsa,
      List.length_replicate, List.length_map]
  have h2 : neutralPts.length ≠ 1 →
      compute_shape_mode neutralPts meshPts =
        .error (.broadcastMismatch meshPts.length neutralPts.length) := by
    intro hn1
    unfold compute_shape_mode
    rw [broadcastOp_error vsub meshPts neutralPts hne hm1 hn1]
  have herr : ∃ dstLen srcLen, compute_shape_mode neutralPts meshPts =
      .error (.broadcastMismatch dstLen srcLen) := by
    by_cases hN1 : neutralPts.length = 1
    · exact ⟨1, meshPts.length, h1 hN1⟩
    · exact ⟨meshPts.length, neutralPts.length, h2 hN1⟩
  refine ⟨h1, h2, herr, fun ms hmem res hok => ?_⟩
  obtain ⟨sm, hsm⟩ := compute_shape_modes_ok_mem neutralPts ms res hok meshPts hmem
  obtain ⟨d, s, hds⟩ := herr
  rw [hds] at hsm
  exact absurd hsm (by simp)

/-- Witness for the amended C3: a 3-vertex morph target against a 2-vertex
neutral mesh (subtraction raises), and a 2-vertex morph target against a
1-vertex neutral mesh (row assignment raises). -/
theorem compute_shape_mode_mismatch_broadcast_error_witness :
    ((neutralTwoW.length = 1 →
        compute_shape_mode neutralTwoW meshThreeW =
          .error (.broadcastMismatch 1 meshThreeW.length)) ∧
      (neutralTwoW.length ≠ 1 →
        compute_shape_mode neutralTwoW meshThreeW =
          .error (.broadcastMismatch meshThreeW.length neutralTwoW.length)) ∧
      (∃ dstLen srcLen, compute_shape_mode neutralTwoW meshThreeW =
        .error (.broadcastMismatch dstLen srcLen)) ∧
      ∀ ms : List (List Vec3), meshThreeW ∈ ms →
        ∀ res, compute_shape_modes neutralTwoW ms ≠ .ok res) ∧
    ((neutralOneW.length = 1 →
        compute_shape_mode neutralOneW meshTwoW =
          .error (.broadcastMismatch 1 meshTwoW.length)) ∧
      (neutralOneW.length ≠ 1 →
        compute_shape_mode neutralOneW meshTwoW =
          .error (.broadcastMismatch meshTwoW.length neutralOneW.length)) ∧
      (∃ dstLen srcLen, compute_shape_mode neutralOneW meshTwoW =
        .error (.broadcastMismatch dstLen srcLen)) ∧
      ∀ ms : List (List Vec3), meshTwoW ∈ ms →
        ∀ res, compute_shape_modes neutralOneW ms ≠ .ok res) :=
  ⟨compute_shape_mode_mismatch_broadcast_error neutralTwoW meshThreeW
      (by decide) (by decide),
   compute_shape_mode_mismatch_broadcast_error neutralOneW meshTwoW
      (by decide) (by decide)⟩

theorem np_array_flat_ok (j : Json) (h : j.flat = true) :
    ∃ v, np_array j = .ok v := by
  cases j with
  | arr xs =>
      simp only [Json.flat, Bool.not_eq_true'] at h
      by_cases hnum : xs.all Json.isNum
      · exact ⟨.numeric1d (xs.filterMap Json.asNum), by simp [np_array, hnum]⟩
      · exact ⟨.object1d xs, by simp [np_array, hnum, h]⟩
  | null => exact ⟨_, rfl⟩
  | bool b => exact ⟨_, rfl⟩
  | num q => exact ⟨_, rfl⟩
  | str s => exact ⟨_, rfl⟩
  | obj kvs => exact ⟨_, rfl⟩

/-- C7 counterexample: a document whose `identity_coefficients` field is the
string `"oops"` — present but not a numeric array — does NOT make
`read_coefficients` fail: `np.array` wraps the string without any type check
and the call returns successfully. -/
theorem read_coefficients_accepts_non_numeric_field :
    badDoc = .obj [(idKey, .str oopsVal), (exKey, .arr [.num 1, .num 2])] ∧
    read_coefficients badDoc =
      .ok (.scalar (.str oopsVal), .numeric1d [1, 2]) :=
  ⟨rfl, rfl⟩

/-- C7 amended: `read_coefficients` returns the pair of arrays built by
`np.array` from the document's two named fields; it fails with a `KeyError`
naming the missing field when either field is absent, but performs NO check
that a present field is a numeric array — any flat value is converted
without error. -/
theorem read_coefficients_keyerror_no_type_check
    (kvs : List (String × Json)) :
    (kvs.lookup idKey = none →
      read_coefficients (.obj kvs) = .error (.keyError idKey)) ∧
    (∀ jid, kvs.lookup idKey = some jid → jid.flat = true →
      kvs.lookup exKey = none →
      read_coefficients (.obj kvs) = .error (.keyError exKey)) ∧
    (∀ jid jex, kvs.lookup idKey = some jid → kvs.lookup exKey = some jex →
      jid.flat = true → jex.flat = true →
      ∃ a b, read_coefficients (.obj kvs) = .ok (a, b) ∧
        np_array jid = .ok a ∧ np_array jex = .ok b) := by
  refine ⟨fun hid => ?_, fun jid hid hflat hex => ?_,
    fun jid jex hid hex hflati hflate => ?_⟩
  · simp [read_coefficients, hid]
  · obtain ⟨v, hv⟩ := np_array_flat_ok jid hflat
    simp [read_coefficients, hid, hv, hex]
  · obtain ⟨a, ha⟩ := np_array_flat_ok jid hflati
    obtain ⟨b, hb⟩ := np_array_flat_ok jex hflate
    exact ⟨a, b, by simp [read_coefficients, hid, ha, hex, hb], ha, hb⟩

/-- Witness for the amended C7 at a concrete document holding a numeric
identity field and a string expression field (both flat, both converted
without error). -/
theorem read_coefficients_keyerror_no_type_check_witness :
    (((([(idKey, Json.num 7), (exKey, Json.str oopsVal)] :
        List (String × Json))).lookup idKey = none →
      read_coefficients (.obj [(idKey, Json.num 7), (exKey, Json.str oopsVal)]) =
        .error (.keyError idKey)) ∧
    (∀ jid, (([(idKey, Json.num 7), (exKey, Json.str oopsVal)] :
        List (String × Json))).lookup idKey = some jid → jid.flat = true →
      (([(idKey, Json.num 7), (exKey, Json.str oopsVal)] :
        List (String × Json))).lookup exKey = none →
      read_coefficients (.obj [(idKey, Json.num 7), (exKey, Json.str oopsVal)]) =
        .error (.keyError exKey)) ∧
    (∀ jid jex, (([(idKey, Json.num 7), (exKey, Json.str oopsVal)] :
        List (String × Json))).lookup idKey = some jid →
      (([(idKey, Json.num 7), (exKey, Json.str oopsVal)] :
        List (String × Json))).lookup exKey = some jex →
      jid.flat = true → jex.flat = true →
      ∃ a b, read_coefficients
          (.obj [(idKey, Json.num 7), (exKey, Json.str oopsVal)]) =
          .ok (a, b) ∧
        np_array jid = .ok a ∧ np_array jex = .ok b)) :=
  read_coefficients_keyerror_no_type_check
    [(idKey, Json.num 7), (exKey, Json.str oopsVal)]

end ICT
